import Mathlib

/-!
Verification of the cifuzz integration-test runner and the Gradle build
adapter, as a shallow embedding in Lean 4.

Part 1 embeds the mutex-guarded `outputChecker` and the tail of
`CIFuzzRunner.Run` from `integration-tests/shared` (the process supervisor
with live output matching).  A Go `*regexp.Regexp` is abstracted as its
`MatchString` function `String → Bool`; the side effect of invoking the
`termationFunc` closure is recorded by a call counter `termCalls`; the
`require.FailNowf` abort on an unexpected line is the `Except.error` case.

Part 2 embeds `internal/build/gradle/gradle.go`.  The outcomes of the
external collaborators (`config.DetermineGradleBuildLanguage`, gradle
command resolution, the three introspection subprocess outputs, and the
corpus-path helpers from `cmdutils`) are parameters collected in a
`GradleEnv` record; the marker-line regexes are embedded character by
character with `.` as a wildcard, exactly as the Go patterns read.
-/

/-- Abstraction of a compiled Go regexp: its `MatchString` function. -/
abbrev Regex := String → Bool

/-- The data carried by `require.FailNowf(t, "Unexpected output", ...)`:
the offending pattern and the offending line. -/
structure CheckFailure where
  pattern : Regex
  line : String

/-- State of `outputChecker` (integration-tests/shared, part_001 lines
290-299).  `termCalls` counts invocations of the `termationFunc` closure. -/
structure OutputChecker where
  lenExpectedOutputs : Nat
  expectedOutputs : List Regex
  unexpectedOutput : Option Regex
  terminateAfterExpectedOutput : Bool
  hasSeenExpectedOutputs : Bool
  hasCalledTerminationFunc : Bool
  termCalls : Nat

/-- The body of `checkOutput` after the unexpected-output check (part_001
lines 311-326): filter the expected patterns by the line, and if none
remain set `hasSeenExpectedOutputs` and, when configured, set
`hasCalledTerminationFunc` and invoke the termination function. -/
def matchExpected (c : OutputChecker) (line : String) : OutputChecker :=
  let remainingExpectedOutputs := c.expectedOutputs.filter (fun e => ! e line)
  let c1 := { c with expectedOutputs := remainingExpectedOutputs }
  if remainingExpectedOutputs.length = 0 then
    let c2 := { c1 with hasSeenExpectedOutputs := true }
    if c2.terminateAfterExpectedOutput then
      { c2 with hasCalledTerminationFunc := true, termCalls := c2.termCalls + 1 }
    else
      c2
  else
    c1

/-- `outputChecker.checkOutput` (part_001 lines 301-327): under the lock,
first fail the run if the line matches the configured unexpected pattern,
otherwise update the expected-output state. -/
def checkOutput (c : OutputChecker) (line : String) : Except CheckFailure OutputChecker :=
  match c.unexpectedOutput with
  | some u =>
      if u line then
        Except.error { pattern := u, line := line }
      else
        Except.ok (matchExpected c line)
  | none => Except.ok (matchExpected c line)

/-- Feeding a sequence of scanned lines to `checkOutput`, as the two
consumer goroutines of `Run` do (part_001 lines 247-267), stopping at the
first `require.FailNowf` abort. -/
def checkOutputAll (c : OutputChecker) : List String → Except CheckFailure OutputChecker
  | [] => Except.ok c
  | line :: rest =>
      match checkOutput c line with
      | Except.error e => Except.error e
      | Except.ok c1 => checkOutputAll c1 rest

/-- The fields of `RunOptions` (part_001 lines 158-169) consumed by the
output checker and the post-wait logic of `Run`. -/
structure RunOptionsM where
  expectedOutputs : List Regex
  unexpectedOutput : Option Regex
  terminateAfterExpectedOutput : Bool
  expectError : Bool

/-- Construction of the `outputChecker` in `Run` (part_001 lines 234-244):
all three mutable fields start false / zero. -/
def mkOutputChecker (opts : RunOptionsM) : OutputChecker :=
  { lenExpectedOutputs := opts.expectedOutputs.length
    expectedOutputs := opts.expectedOutputs
    unexpectedOutput := opts.unexpectedOutput
    terminateAfterExpectedOutput := opts.terminateAfterExpectedOutput
    hasSeenExpectedOutputs := false
    hasCalledTerminationFunc := false
    termCalls := 0 }

/-- Number of termination-function invocations accumulated while feeding
the given lines, zero if the run was aborted by an unexpected line. -/
def termCallsAfterAll (c : OutputChecker) (lines : List String) : Nat :=
  match checkOutputAll c lines with
  | Except.ok c1 => c1.termCalls
  | Except.error _ => 0

/-- Outcome of the tail of `CIFuzzRunner.Run` (part_001 lines 269-287). -/
inductive RunOutcome where
  /-- The early `return` at line 276: the matcher had called the
  termination function and `executil.IsTerminatedExitErr(waitErr)` holds. -/
  | terminatedEarlyOk
  /-- `require.Error` / `require.NoError` on `waitErr` failed (lines 278-282). -/
  | waitErrAssertionFailed
  /-- `require.True(t, outputChecker.hasSeenExpectedOutputs, ...)` failed (line 287). -/
  | expectedOutputsAssertionFailed
  /-- `require.NoError(t, runCtx.Err())` in the cancellation branch failed (line 284). -/
  | cancelledAssertionFailed
  /-- `Run` returned with every `require` satisfied. -/
  | passed
deriving DecidableEq

/-- The decision logic of `Run` after the subprocess-wait select (part_001
lines 269-287), evaluated on the final checker state after both consumer
goroutines were joined.  `waitErrIsSome` models `waitErr != nil`,
`waitErrIsTerminated` models `executil.IsTerminatedExitErr(waitErr)`, and
`cancelled` selects the `runCtx.Done()` branch. -/
def runFinish (expectError waitErrIsSome waitErrIsTerminated cancelled : Bool)
    (c : OutputChecker) : RunOutcome :=
  if cancelled then
    RunOutcome.cancelledAssertionFailed
  else if c.hasCalledTerminationFunc && waitErrIsTerminated then
    RunOutcome.terminatedEarlyOk
  else if (if expectError then !waitErrIsSome else waitErrIsSome) then
    RunOutcome.waitErrAssertionFailed
  else if !c.hasSeenExpectedOutputs then
    RunOutcome.expectedOutputsAssertionFailed
  else
    RunOutcome.passed

/-- An interleaving of two per-stream line sequences, as produced by the
two concurrent consumer goroutines: order is preserved within each stream,
cross-stream order is arbitrary. -/
inductive Interleaves : List String → List String → List String → Prop where
  | nil : Interleaves [] [] []
  | left {a : String} {l1 l2 l : List String} :
      Interleaves l1 l2 l → Interleaves (a :: l1) l2 (a :: l)
  | right {a : String} {l1 l2 l : List String} :
      Interleaves l1 l2 l → Interleaves l1 (a :: l2) (a :: l)

-- Basic step lemmas about `matchExpected`.

theorem matchExpected_expectedOutputs (c : OutputChecker) (line : String) :
    (matchExpected c line).expectedOutputs = c.expectedOutputs.filter (fun e => ! e line) := by
  unfold matchExpected
  dsimp only
  split <;> [skip; rfl]
  split <;> rfl

theorem matchExpected_unexpectedOutput (c : OutputChecker) (line : String) :
    (matchExpected c line).unexpectedOutput = c.unexpectedOutput := by
  unfold matchExpected
  dsimp only
  split <;> [skip; rfl]
  split <;> rfl

theorem matchExpected_terminateAfter (c : OutputChecker) (line : String) :
    (matchExpected c line).terminateAfterExpectedOutput = c.terminateAfterExpectedOutput := by
  unfold matchExpected
  dsimp only
  split <;> [skip; rfl]
  split <;> rfl

theorem matchExpected_hasSeen (c : OutputChecker) (line : String) :
    (matchExpected c line).hasSeenExpectedOutputs
      = ((c.expectedOutputs.filter (fun e => ! e line)).length = 0 || c.hasSeenExpectedOutputs) := by
  unfold matchExpected
  by_cases h : (c.expectedOutputs.filter (fun e => ! e line)).length = 0
  · by_cases ht : c.terminateAfterExpectedOutput <;> simp [h, ht]
  · simp [h]

theorem matchExpected_hasCalled (c : OutputChecker) (line : String) :
    (matchExpected c line).hasCalledTerminationFunc
      = (((c.expectedOutputs.filter (fun e => ! e line)).length = 0
            && c.terminateAfterExpectedOutput) || c.hasCalledTerminationFunc) := by
  unfold matchExpected
  by_cases h : (c.expectedOutputs.filter (fun e => ! e line)).length = 0
  · by_cases ht : c.terminateAfterExpectedOutput <;> simp [h, ht]
  · simp [h]

theorem matchExpected_termCalls (c : OutputChecker) (line : String) :
    (matchExpected c line).termCalls
      = (if (matchExpected c line).expectedOutputs.length = 0
            && c.terminateAfterExpectedOutput
         then c.termCalls + 1 else c.termCalls) := by
  unfold matchExpected
  by_cases h : (c.expectedOutputs.filter (fun e => ! e line)).length = 0
  · by_cases ht : c.terminateAfterExpectedOutput <;> simp [h, ht]
  · simp [h]

theorem checkOutput_of_unexpected_none (c : OutputChecker) (line : String)
    (h : c.unexpectedOutput = none) :
    checkOutput c line = Except.ok (matchExpected c line) := by
  unfold checkOutput
  rw [h]

theorem checkOutput_ok_eq (c : OutputChecker) (line : String) (c1 : OutputChecker)
    (h : checkOutput c line = Except.ok c1) : c1 = matchExpected c line := by
  unfold checkOutput at h
  cases hu : c.unexpectedOutput with
  | none =>
      rw [hu] at h
      cases h
      rfl
  | some u =>
      rw [hu] at h
      by_cases hm : u line
      · simp [hm] at h
      · simp [hm] at h
        exact h.symm

-- Fold-level lemmas: feeding a whole line sequence.

theorem checkOutputAll_ok_eq (lines : List String) :
    ∀ (c c1 : OutputChecker), checkOutputAll c lines = Except.ok c1 →
      c1 = lines.foldl matchExpected c := by
  induction lines with
  | nil =>
      intro c c1 h
      cases h
      rfl
  | cons line rest ih =>
      intro c c1 h
      unfold checkOutputAll at h
      cases hc : checkOutput c line with
      | error e => rw [hc] at h; cases h
      | ok cmid =>
          rw [hc] at h
          have hmid := checkOutput_ok_eq c line cmid hc
          subst hmid
          exact ih _ _ h

theorem checkOutputAll_of_unexpected_none (lines : List String) :
    ∀ (c : OutputChecker), c.unexpectedOutput = none →
      checkOutputAll c lines = Except.ok (lines.foldl matchExpected c) := by
  induction lines with
  | nil => intro c _; rfl
  | cons line rest ih =>
      intro c hu
      unfold checkOutputAll
      rw [checkOutput_of_unexpected_none c line hu]
      exact ih _ ((matchExpected_unexpectedOutput c line).trans hu)

theorem foldl_matchExpected_expectedOutputs (lines : List String) :
    ∀ (c : OutputChecker),
      (lines.foldl matchExpected c).expectedOutputs
        = c.expectedOutputs.filter (fun e => lines.all (fun x => ! e x)) := by
  induction lines with
  | nil =>
      intro c
      simp [List.filter_eq_self]
  | cons line rest ih =>
      intro c
      rw [List.foldl_cons, ih, matchExpected_expectedOutputs, List.filter_filter]
      have hfun : (fun e => rest.all (fun x => ! e x) && ! e line)
          = (fun e : Regex => (line :: rest).all (fun x => ! e x)) := by
        funext e
        rw [List.all_cons, Bool.and_comm]
      rw [hfun]

theorem foldl_matchExpected_hasSeen_mono (lines : List String) :
    ∀ (c : OutputChecker), c.hasSeenExpectedOutputs = true →
      (lines.foldl matchExpected c).hasSeenExpectedOutputs = true := by
  induction lines with
  | nil => intro c h; exact h
  | cons line rest ih =>
      intro c h
      rw [List.foldl_cons]
      exact ih _ (by rw [matchExpected_hasSeen, h, Bool.or_true])

theorem foldl_matchExpected_hasCalled_mono (lines : List String) :
    ∀ (c : OutputChecker), c.hasCalledTerminationFunc = true →
      (lines.foldl matchExpected c).hasCalledTerminationFunc = true := by
  induction lines with
  | nil => intro c h; exact h
  | cons line rest ih =>
      intro c h
      rw [List.foldl_cons]
      exact ih _ (by rw [matchExpected_hasCalled, h, Bool.or_true])

/-- Reachability invariant of the checker: whenever `hasSeenExpectedOutputs`
or `hasCalledTerminationFunc` holds, `expectedOutputs` has become empty. -/
def SeenInv (c : OutputChecker) : Prop :=
  (c.hasSeenExpectedOutputs = true → c.expectedOutputs = [])
    ∧ (c.hasCalledTerminationFunc = true → c.expectedOutputs = [])

theorem seenInv_matchExpected (c : OutputChecker) (line : String) (h : SeenInv c) :
    SeenInv (matchExpected c line) := by
  by_cases hlen : (c.expectedOutputs.filter (fun e => ! e line)).length = 0
  · have hemp : (matchExpected c line).expectedOutputs = [] := by
      rw [matchExpected_expectedOutputs]
      exact List.length_eq_zero.mp hlen
    exact ⟨fun _ => hemp, fun _ => hemp⟩
  · constructor
    · intro hseen
      rw [matchExpected_hasSeen] at hseen
      rcases Bool.or_eq_true_iff.mp hseen with h1 | h1
      · exact absurd (of_decide_eq_true h1) hlen
      · rw [matchExpected_expectedOutputs, h.1 h1]
        rfl
    · intro hcall
      rw [matchExpected_hasCalled] at hcall
      rcases Bool.or_eq_true_iff.mp hcall with h1 | h1
      · exact absurd (of_decide_eq_true (Bool.and_elim_left h1)) hlen
      · rw [matchExpected_expectedOutputs, h.2 h1]
        rfl

theorem seenInv_foldl (lines : List String) :
    ∀ (c : OutputChecker), SeenInv c → SeenInv (lines.foldl matchExpected c) := by
  induction lines with
  | nil => intro c h; exact h
  | cons line rest ih =>
      intro c h
      rw [List.foldl_cons]
      exact ih _ (seenInv_matchExpected c line h)

theorem seenInv_mkOutputChecker (opts : RunOptionsM) : SeenInv (mkOutputChecker opts) := by
  constructor <;> intro h <;> simp [mkOutputChecker] at h

-- Interleavings: the set of lines seen is the union of the two streams.

theorem interleaves_any {l1 l2 l : List String} (h : Interleaves l1 l2 l)
    (p : String → Bool) : l.any p = (l1.any p || l2.any p) := by
  induction h with
  | nil => rfl
  | left _ ih => simp [List.any_cons, ih, Bool.or_assoc]
  | right _ ih =>
      simp only [List.any_cons, ih]
      rw [Bool.or_left_comm]

theorem all_not_eq_not_any (lines : List String) (p : String → Bool) :
    lines.all (fun x => ! p x) = ! lines.any p := by
  induction lines with
  | nil => rfl
  | cons x rest ih => simp [List.all_cons, List.any_cons, ih]

-- Part 2: the Gradle build adapter (internal/build/gradle/gradle.go).

/-- One token of a Go regexp pattern as used by the marker-line regexes:
a literal character or the `.` wildcard (which matches any character of a
single line). -/
inductive RTok where
  | lit : Char → RTok
  | dot : RTok

/-- Reads a Go pattern fragment into tokens, `.` becoming the wildcard,
exactly as in `cifuzz.test.classpath=` / `cifuzz.buildDir=`. -/
def mkPat (s : String) : List RTok :=
  s.data.map (fun ch => if ch = '.' then RTok.dot else RTok.lit ch)

/-- Matches a token list against the beginning of a line; on success
returns the rest of the line, which is what `(?P<...>.*)$` captures. -/
def matchMarker : List RTok → List Char → Option (List Char)
  | [], rest => some rest
  | _ :: _, [] => none
  | RTok.lit d :: ps, ch :: cs => if d = ch then matchMarker ps cs else none
  | RTok.dot :: ps, _ :: cs => matchMarker ps cs

/-- Token form of `classpathRegex = (?m)^cifuzz.test.classpath=(?P<classpath>.*)$`
(gradle.go line 23). -/
def classpathPat : List RTok := mkPat "cifuzz.test.classpath="

/-- Token form of `buildDirRegex = (?m)^cifuzz.buildDir=(?P<buildDir>.*)$`
(gradle.go line 24). -/
def buildDirPat : List RTok := mkPat "cifuzz.buildDir="

/-- Splits a character sequence at `'\n'`, the line structure that the
`(?m)` flag gives the marker regexes (`^` and `$` anchor at these
boundaries, and `.` does not cross them). -/
def splitLinesAux : List Char → List Char → List (List Char)
  | [], acc => [acc.reverse]
  | ch :: cs, acc =>
      if ch = '\n' then acc.reverse :: splitLinesAux cs []
      else splitLinesAux cs (ch :: acc)

/-- The lines of an output string. -/
def splitLines (cs : List Char) : List (List Char) := splitLinesAux cs []

/-- `FindStringSubmatch` for an `(?m)^...(.*)$` pattern: the capture group
of the first line of the output that matches, `none` when no line matches
(Go returns a nil slice then). -/
def findMarkerSubmatch (pat : List RTok) (output : String) : Option String :=
  (splitLines output.data).findSome? (fun line => (matchMarker pat line).map List.asString)

/-- `os.PathListSeparator` as a string (`":"` on the POSIX platforms the
integration tests run on). -/
def pathListSepStr : String := ":"

/-- `strings.TrimPrefix`: drop the prefix when present, else return the
string unchanged. -/
def trimPfxStr (pre s : String) : String :=
  if pre.isPrefixOf s then s.drop pre.length else s

/-- Errors produced by the gradle adapter, tagged by their origin. -/
inductive BuildErr where
  /-- `config.DetermineGradleBuildLanguage` failed. -/
  | languageErr
  /-- `buildGradleCommand` / `GetGradleCommand` failed to resolve a command. -/
  | cmdResolveErr
  /-- `cmd.Output()` failed (possibly wrapped by `cmdutils.WrapExecError`). -/
  | execErr
  /-- `errors.New("Unable to parse gradle build directory from init script.")`. -/
  | formatErr
  /-- `cmdutils.WrapSilentError` around an inner error. -/
  | silentErr : BuildErr → BuildErr
deriving DecidableEq

/-- Result of a Go function that can return a value, return an error, or
panic at runtime (index out of range). -/
inductive GoResult (α : Type) where
  | ok : α → GoResult α
  | err : BuildErr → GoResult α
  | panicked : GoResult α
deriving DecidableEq

/-- Outcomes of the external collaborators of the gradle adapter: the
build-language detection, gradle command resolution (deterministic in the
project directory, hence shared by the three introspection calls), the
stdout of the three introspection subprocesses (`none` models a failing
`cmd.Output()`), and the corpus-path helpers from `cmdutils`. -/
structure GradleEnv where
  projectDir : String
  languageRes : Option String
  gradleCommandRes : Option String
  versionOutputRes : Option String
  classpathOutputRes : Option String
  buildDirOutputRes : Option String
  jazzerSeedCorpus : String → String → String
  jazzerGeneratedCorpus : String → String → String

/-- `build.Result` (the normalized `BuildResult` contract). -/
structure BuildResultM where
  name : String
  buildDir : String
  projectDir : String
  generatedCorpus : String
  seedCorpus : String
  runtimeDeps : List String

/-- The three introspection commands a successful build spawns, plus the
side-channel emission of setup instructions (`log.Print(messaging.Instructions ...)`). -/
inductive BuildStep where
  | determineLanguageStep
  | pluginVersionStep
  | emitInstructionsStep
  | dependenciesStep
  | buildDirStep
deriving DecidableEq

/-- `Builder.GradlePluginVersion` (gradle.go lines 118-130): resolve the
gradle command, run `cifuzzPrintPluginVersion -q`, and strip the marker
from its output with `strings.TrimPrefix`. -/
def gradlePluginVersion (env : GradleEnv) : Except BuildErr String :=
  match env.gradleCommandRes with
  | none => Except.error BuildErr.cmdResolveErr
  | some _ =>
      match env.versionOutputRes with
      | none => Except.error BuildErr.execErr
      | some output => Except.ok (trimPfxStr "cifuzz.plugin.version=" output)

/-- `Builder.getDependencies` (gradle.go lines 132-146): resolve the
command, run `cifuzzPrintTestClasspath -q`, then index
`classpathRegex.FindStringSubmatch(...)[1]` — with NO nil check, so a
missing marker line is a runtime panic (index out of range on a nil
slice) — and split the trimmed capture on `os.PathListSeparator`. -/
def getDependencies (env : GradleEnv) : GoResult (List String) :=
  match env.gradleCommandRes with
  | none => GoResult.err BuildErr.cmdResolveErr
  | some _ =>
      match env.classpathOutputRes with
      | none => GoResult.err BuildErr.execErr
      | some output =>
          match findMarkerSubmatch classpathPat output with
          | none => GoResult.panicked
          | some capture => GoResult.ok (capture.trim.splitOn pathListSepStr)

/-- `GetBuildDirectory` (gradle.go lines 179-197): when command resolution
fails it returns `"", nil` (an empty path with a nil error); otherwise it
runs `cifuzzPrintBuildDir -q`, checks the submatch for nil, and returns
either a format error or the trimmed capture. -/
def getBuildDirectory (env : GradleEnv) : GoResult String :=
  match env.gradleCommandRes with
  | none => GoResult.ok ""
  | some _ =>
      match env.buildDirOutputRes with
      | none => GoResult.err BuildErr.execErr
      | some output =>
          match findMarkerSubmatch buildDirPat output with
          | none => GoResult.err BuildErr.formatErr
          | some capture => GoResult.ok capture.trim

/-- `Builder.Build` (gradle.go lines 76-116), paired with the trace of
introspection commands spawned and instruction emissions.  On a plugin
version failure it emits the setup instructions and returns the error
wrapped by `cmdutils.WrapSilentError` without running either of the other
two introspection commands. -/
def build (env : GradleEnv) (targetClass : String) : GoResult BuildResultM × List BuildStep :=
  match env.languageRes with
  | none => (GoResult.err BuildErr.languageErr, [BuildStep.determineLanguageStep])
  | some _lang =>
      match gradlePluginVersion env with
      | Except.error e =>
          (GoResult.err (BuildErr.silentErr e),
            [BuildStep.determineLanguageStep, BuildStep.pluginVersionStep,
              BuildStep.emitInstructionsStep])
      | Except.ok _version =>
          match getDependencies env with
          | GoResult.panicked =>
              (GoResult.panicked,
                [BuildStep.determineLanguageStep, BuildStep.pluginVersionStep,
                  BuildStep.dependenciesStep])
          | GoResult.err e =>
              (GoResult.err e,
                [BuildStep.determineLanguageStep, BuildStep.pluginVersionStep,
                  BuildStep.dependenciesStep])
          | GoResult.ok deps =>
              match getBuildDirectory env with
              | GoResult.panicked =>
                  (GoResult.panicked,
                    [BuildStep.determineLanguageStep, BuildStep.pluginVersionStep,
                      BuildStep.dependenciesStep, BuildStep.buildDirStep])
              | GoResult.err e =>
                  (GoResult.err e,
                    [BuildStep.determineLanguageStep, BuildStep.pluginVersionStep,
                      BuildStep.dependenciesStep, BuildStep.buildDirStep])
              | GoResult.ok buildDir =>
                  (GoResult.ok
                      { name := targetClass
                        buildDir := buildDir
                        projectDir := env.projectDir
                        generatedCorpus := env.jazzerGeneratedCorpus targetClass env.projectDir
                        seedCorpus := env.jazzerSeedCorpus targetClass env.projectDir
                        runtimeDeps := deps },
                    [BuildStep.determineLanguageStep, BuildStep.pluginVersionStep,
                      BuildStep.dependenciesStep, BuildStep.buildDirStep])

-- Claim theorems.

/-- Claim C7: when an unexpected-output pattern is configured and the line
matches it, `checkOutput` fails the run immediately with a failure that
identifies the pattern and the line, regardless of the expected-pattern
state (the same failure results for any `expectedOutputs` value, even an
already-empty one). -/
theorem checkOutput_unexpected_fails_immediately (c : OutputChecker) (u : Regex)
    (line : String) (hu : c.unexpectedOutput = some u) (hm : u line = true) :
    checkOutput c line = Except.error { pattern := u, line := line }
      ∧ ∀ P1 : List Regex,
          checkOutput { c with expectedOutputs := P1 } line
            = Except.error { pattern := u, line := line } := by
  constructor
  · unfold checkOutput
    rw [hu]
    simp [hm]
  · intro P1
    unfold checkOutput
    simp only [hu]
    simp [hm]

theorem checkOutput_unexpected_fails_immediately_witness :
    checkOutput
        (mkOutputChecker
          { expectedOutputs := []
            unexpectedOutput := some (fun s => s == "PANIC: oops")
            terminateAfterExpectedOutput := false
            expectError := false })
        "PANIC: oops"
      = Except.error { pattern := fun s => s == "PANIC: oops", line := "PANIC: oops" }
      ∧ ∀ P1 : List Regex,
          checkOutput
              { mkOutputChecker
                  { expectedOutputs := []
                    unexpectedOutput := some (fun s => s == "PANIC: oops")
                    terminateAfterExpectedOutput := false
                    expectError := false } with expectedOutputs := P1 }
              "PANIC: oops"
            = Except.error { pattern := fun s => s == "PANIC: oops", line := "PANIC: oops" } :=
  checkOutput_unexpected_fails_immediately _ _ _ rfl (by decide)

/-- Claim C8: across any successful sequence of `checkOutput` calls the
checker state is monotone: the final `expectedOutputs` is a sublist of the
initial one, once the set is empty it stays empty, and
`hasSeenExpectedOutputs` never reverts to false once true. -/
theorem checker_state_monotone (c : OutputChecker) (lines : List String)
    (c1 : OutputChecker) (h : checkOutputAll c lines = Except.ok c1) :
    List.Sublist c1.expectedOutputs c.expectedOutputs
      ∧ (c.expectedOutputs = [] → c1.expectedOutputs = [])
      ∧ (c.hasSeenExpectedOutputs = true → c1.hasSeenExpectedOutputs = true) := by
  have hc := checkOutputAll_ok_eq lines c c1 h
  subst hc
  refine ⟨?_, ?_, foldl_matchExpected_hasSeen_mono lines c⟩
  · rw [foldl_matchExpected_expectedOutputs]
    exact List.filter_sublist _
  · intro he
    rw [foldl_matchExpected_expectedOutputs, he]
    rfl

theorem checker_state_monotone_witness :
    List.Sublist
        ((["A"].foldl matchExpected
            (mkOutputChecker
              { expectedOutputs := [fun s => s == "A"], unexpectedOutput := none
                terminateAfterExpectedOutput := false, expectError := false })).expectedOutputs)
        ((mkOutputChecker
            { expectedOutputs := [fun s => s == "A"], unexpectedOutput := none
              terminateAfterExpectedOutput := false, expectError := false }).expectedOutputs)
      ∧ ((mkOutputChecker
            { expectedOutputs := [fun s => s == "A"], unexpectedOutput := none
              terminateAfterExpectedOutput := false, expectError := false }).expectedOutputs = []
          → (["A"].foldl matchExpected
              (mkOutputChecker
                { expectedOutputs := [fun s => s == "A"], unexpectedOutput := none
                  terminateAfterExpectedOutput := false, expectError := false })).expectedOutputs = [])
      ∧ ((mkOutputChecker
            { expectedOutputs := [fun s => s == "A"], unexpectedOutput := none
              terminateAfterExpectedOutput := false, expectError := false }).hasSeenExpectedOutputs = true
          → (["A"].foldl matchExpected
              (mkOutputChecker
                { expectedOutputs := [fun s => s == "A"], unexpectedOutput := none
                  terminateAfterExpectedOutput := false, expectError := false })).hasSeenExpectedOutputs = true) :=
  checker_state_monotone _ ["A"] _ rfl

/-- Claim C9: when gradle command resolution fails, `GetBuildDirectory`
returns an empty build directory together with a nil error, i.e. it
reports success with an empty path instead of propagating the failure. -/
theorem getBuildDirectory_swallows_resolve_error (env : GradleEnv)
    (h : env.gradleCommandRes = none) :
    getBuildDirectory env = GoResult.ok "" := by
  unfold getBuildDirectory
  rw [h]

theorem getBuildDirectory_swallows_resolve_error_witness :
    getBuildDirectory
        { projectDir := "/proj", languageRes := some "java", gradleCommandRes := none
          versionOutputRes := none, classpathOutputRes := none, buildDirOutputRes := none
          jazzerSeedCorpus := fun _ _ => "", jazzerGeneratedCorpus := fun _ _ => "" }
      = GoResult.ok "" :=
  getBuildDirectory_swallows_resolve_error _ rfl

/-- Claim C5: on natural completion, when the matcher had called its
termination function and the subprocess error is classified as terminated
by signal, `Run` returns as a normal successful completion, and the
outcome does not depend on the `ExpectError` flag. -/
theorem run_early_terminated_ignores_expectError (e1 e2 wS : Bool)
    (c : OutputChecker) (h : c.hasCalledTerminationFunc = true) :
    runFinish e1 wS true false c = RunOutcome.terminatedEarlyOk
      ∧ runFinish e1 wS true false c = runFinish e2 wS true false c := by
  unfold runFinish
  simp [h]

theorem run_early_terminated_ignores_expectError_witness :
    runFinish false false true false
        { lenExpectedOutputs := 0, expectedOutputs := [], unexpectedOutput := none
          terminateAfterExpectedOutput := true, hasSeenExpectedOutputs := true
          hasCalledTerminationFunc := true, termCalls := 1 }
      = RunOutcome.terminatedEarlyOk
      ∧ runFinish false false true false
          { lenExpectedOutputs := 0, expectedOutputs := [], unexpectedOutput := none
            terminateAfterExpectedOutput := true, hasSeenExpectedOutputs := true
            hasCalledTerminationFunc := true, termCalls := 1 }
        = runFinish true false true false
            { lenExpectedOutputs := 0, expectedOutputs := [], unexpectedOutput := none
              terminateAfterExpectedOutput := true, hasSeenExpectedOutputs := true
              hasCalledTerminationFunc := true, termCalls := 1 } :=
  run_early_terminated_ignores_expectError false true false _ rfl

/-- Claim C6: when the plugin-version introspection fails, `Build` emits
the setup instructions, returns the error wrapped as a silent error, and
spawns neither the classpath nor the build-directory introspection
command. -/
theorem build_missing_plugin_stops (env : GradleEnv) (t lang : String)
    (hl : env.languageRes = some lang) (e : BuildErr)
    (hv : gradlePluginVersion env = Except.error e) :
    build env t
        = (GoResult.err (BuildErr.silentErr e),
            [BuildStep.determineLanguageStep, BuildStep.pluginVersionStep,
              BuildStep.emitInstructionsStep])
      ∧ BuildStep.dependenciesStep ∉ (build env t).2
      ∧ BuildStep.buildDirStep ∉ (build env t).2 := by
  have hb : build env t
      = (GoResult.err (BuildErr.silentErr e),
          [BuildStep.determineLanguageStep, BuildStep.pluginVersionStep,
            BuildStep.emitInstructionsStep]) := by
    unfold build
    rw [hl, hv]
  refine ⟨hb, ?_, ?_⟩ <;> rw [hb] <;> simp

theorem build_missing_plugin_stops_witness :
    build
        { projectDir := "/proj", languageRes := some "java", gradleCommandRes := none
          versionOutputRes := none, classpathOutputRes := none, buildDirOutputRes := none
          jazzerSeedCorpus := fun _ _ => "", jazzerGeneratedCorpus := fun _ _ => "" }
        "com.example.FuzzTestCase"
        = (GoResult.err (BuildErr.silentErr BuildErr.cmdResolveErr),
            [BuildStep.determineLanguageStep, BuildStep.pluginVersionStep,
              BuildStep.emitInstructionsStep])
      ∧ BuildStep.dependenciesStep ∉
          (build
            { projectDir := "/proj", languageRes := some "java", gradleCommandRes := none
              versionOutputRes := none, classpathOutputRes := none, buildDirOutputRes := none
              jazzerSeedCorpus := fun _ _ => "", jazzerGeneratedCorpus := fun _ _ => "" }
            "com.example.FuzzTestCase").2
      ∧ BuildStep.buildDirStep ∉
          (build
            { projectDir := "/proj", languageRes := some "java", gradleCommandRes := none
              versionOutputRes := none, classpathOutputRes := none, buildDirOutputRes := none
              jazzerSeedCorpus := fun _ _ => "", jazzerGeneratedCorpus := fun _ _ => "" }
            "com.example.FuzzTestCase").2 :=
  build_missing_plugin_stops _ _ "java" rfl BuildErr.cmdResolveErr rfl

/-- Claim C1: for every expected-pattern set P and any interleaving of two
per-stream line sequences, feeding the interleaving through `checkOutput`
succeeds (no unexpected pattern configured) and leaves exactly the
patterns of P matched by no line of either stream — so the result is
independent of cross-stream delivery order, and one line may remove
several patterns at once. -/
theorem checkOutput_result_order_independent (P : List Regex) (term eflag : Bool)
    (l1 l2 l : List String) (h : Interleaves l1 l2 l) :
    checkOutputAll
        (mkOutputChecker
          { expectedOutputs := P, unexpectedOutput := none
            terminateAfterExpectedOutput := term, expectError := eflag }) l
        = Except.ok
            (l.foldl matchExpected
              (mkOutputChecker
                { expectedOutputs := P, unexpectedOutput := none
                  terminateAfterExpectedOutput := term, expectError := eflag }))
      ∧ (l.foldl matchExpected
            (mkOutputChecker
              { expectedOutputs := P, unexpectedOutput := none
                terminateAfterExpectedOutput := term, expectError := eflag })).expectedOutputs
          = P.filter (fun p => ! (l1.any (fun x => p x) || l2.any (fun x => p x))) := by
  constructor
  · exact checkOutputAll_of_unexpected_none l _ rfl
  · rw [foldl_matchExpected_expectedOutputs]
    have hfun : (fun p : Regex => l.all (fun x => ! p x))
        = (fun p : Regex => ! (l1.any (fun x => p x) || l2.any (fun x => p x))) := by
      funext p
      rw [all_not_eq_not_any l p, interleaves_any h p]
    show (mkOutputChecker _).expectedOutputs.filter _ = _
    rw [hfun]
    rfl

theorem checkOutput_result_order_independent_witness :
    Interleaves ["READY"] ["DONE"] ["DONE", "READY"]
      ∧ (checkOutputAll
            (mkOutputChecker
              { expectedOutputs := [fun s => s == "READY", fun s => s == "DONE"]
                unexpectedOutput := none
                terminateAfterExpectedOutput := false, expectError := false })
            ["DONE", "READY"]
          = Except.ok
              (["DONE", "READY"].foldl matchExpected
                (mkOutputChecker
                  { expectedOutputs := [fun s => s == "READY", fun s => s == "DONE"]
                    unexpectedOutput := none
                    terminateAfterExpectedOutput := false, expectError := false }))
          ∧ (["DONE", "READY"].foldl matchExpected
                (mkOutputChecker
                  { expectedOutputs := [fun s => s == "READY", fun s => s == "DONE"]
                    unexpectedOutput := none
                    terminateAfterExpectedOutput := false, expectError := false })).expectedOutputs
              = ([fun s => s == "READY", fun s => s == "DONE"] : List Regex).filter
                  (fun p => ! ((["READY"] : List String).any (fun x => p x)
                      || (["DONE"] : List String).any (fun x => p x)))) :=
  ⟨Interleaves.right (Interleaves.left Interleaves.nil),
    checkOutput_result_order_independent _ false false _ _ _
      (Interleaves.right (Interleaves.left Interleaves.nil))⟩

/-- Claim C2 counterexample: with one expected pattern, terminate-on-
satisfaction configured and the line sequence `["A", "B"]`, the
termination function is invoked twice — once when `"A"` empties the set
and again for `"B"`, because `checkOutput` never consults
`hasCalledTerminationFunc` as a guard.  Two invocations contradict "at
most once". -/
theorem checkOutput_termination_guard_counterexample :
    termCallsAfterAll
        (mkOutputChecker
          { expectedOutputs := [fun s => s == "A"], unexpectedOutput := none
            terminateAfterExpectedOutput := true, expectError := false })
        ["A", "B"] = 2
      ∧ ¬ (2 ≤ 1) := by
  constructor
  · rfl
  · decide

/-- Claim C2 as amended: `hasCalledTerminationFunc` stays true once set,
but it is not consulted as a guard: on every successful `checkOutput`
call that leaves `expectedOutputs` empty while terminate-on-satisfaction
is configured — including every call after the set first became empty —
the termination function is invoked once more. -/
theorem checkOutput_termination_unguarded (c : OutputChecker) (line : String)
    (c1 : OutputChecker) (h : checkOutput c line = Except.ok c1) :
    c1.termCalls
        = (if c1.expectedOutputs.length = 0 && c.terminateAfterExpectedOutput
           then c.termCalls + 1 else c.termCalls)
      ∧ (c.hasCalledTerminationFunc = true → c1.hasCalledTerminationFunc = true) := by
  have hc := checkOutput_ok_eq c line c1 h
  subst hc
  constructor
  · exact matchExpected_termCalls c line
  · intro hcall
    rw [matchExpected_hasCalled, hcall, Bool.or_true]

theorem checkOutput_termination_unguarded_witness :
    (matchExpected
        (mkOutputChecker
          { expectedOutputs := [fun s => s == "A"], unexpectedOutput := none
            terminateAfterExpectedOutput := true, expectError := false })
        "A").termCalls
        = (if (matchExpected
                (mkOutputChecker
                  { expectedOutputs := [fun s => s == "A"], unexpectedOutput := none
                    terminateAfterExpectedOutput := true, expectError := false })
                "A").expectedOutputs.length = 0
              && (mkOutputChecker
                    { expectedOutputs := [fun s => s == "A"], unexpectedOutput := none
                      terminateAfterExpectedOutput := true, expectError := false }).terminateAfterExpectedOutput
           then (mkOutputChecker
                  { expectedOutputs := [fun s => s == "A"], unexpectedOutput := none
                    terminateAfterExpectedOutput := true, expectError := false }).termCalls + 1
           else (mkOutputChecker
                  { expectedOutputs := [fun s => s == "A"], unexpectedOutput := none
                    terminateAfterExpectedOutput := true, expectError := false }).termCalls)
      ∧ ((mkOutputChecker
            { expectedOutputs := [fun s => s == "A"], unexpectedOutput := none
              terminateAfterExpectedOutput := true, expectError := false }).hasCalledTerminationFunc = true
          → (matchExpected
              (mkOutputChecker
                { expectedOutputs := [fun s => s == "A"], unexpectedOutput := none
                  terminateAfterExpectedOutput := true, expectError := false })
              "A").hasCalledTerminationFunc = true) :=
  checkOutput_termination_unguarded _ "A" _ rfl

/-- Claim C3: contrary to the claim, `getDependencies` does not return a
format error when no line of the classpath-introspection output matches
the `cifuzz.test.classpath=` marker: `FindStringSubmatch` returns a nil
slice and `classpath[1]` panics with an index-out-of-range.  The code
crashes where its sibling `GetBuildDirectory` checks for nil and returns
a format error. -/
theorem getDependencies_missing_marker_panics (env : GradleEnv) (g output : String)
    (hcmd : env.gradleCommandRes = some g) (hout : env.classpathOutputRes = some output)
    (hnm : ∀ line ∈ splitLines output.data, matchMarker classpathPat line = none) :
    getDependencies env = GoResult.panicked := by
  have hfind : findMarkerSubmatch classpathPat output = none := by
    unfold findMarkerSubmatch
    apply List.findSome?_eq_none_iff.mpr
    intro line hline
    rw [hnm line hline]
    rfl
  unfold getDependencies
  rw [hcmd, hout]
  show (match findMarkerSubmatch classpathPat output with
        | none => GoResult.panicked
        | some capture => GoResult.ok (capture.trim.splitOn pathListSepStr))
      = GoResult.panicked
  rw [hfind]

theorem getDependencies_missing_marker_panics_witness :
    getDependencies
        { projectDir := "/proj", languageRes := some "java", gradleCommandRes := some "gradlew"
          versionOutputRes := some "cifuzz.plugin.version=1.0.0"
          classpathOutputRes := some "", buildDirOutputRes := none
          jazzerSeedCorpus := fun _ _ => "", jazzerGeneratedCorpus := fun _ _ => "" }
      = GoResult.panicked :=
  getDependencies_missing_marker_panics _ "gradlew" "" rfl rfl (by
    intro line hline
    simp only [splitLines, splitLinesAux, List.mem_singleton] at hline
    subst hline
    rfl)

/-- Claim C4 counterexample: a non-cancelled run whose subprocess exits
with status 0 while `ExpectError` is true and the expected pattern
`^FOUND$` was never matched aborts at `require.Error(t, waitErr)` — a
failure on the exit status, not the `hasSeenExpectedOutputs` assertion
the claim names. -/
theorem run_unmatched_expected_counterexample :
    checkOutputAll
        (mkOutputChecker
          { expectedOutputs := [fun s => s == "FOUND"], unexpectedOutput := none
            terminateAfterExpectedOutput := false, expectError := true }) []
        = Except.ok
            (mkOutputChecker
              { expectedOutputs := [fun s => s == "FOUND"], unexpectedOutput := none
                terminateAfterExpectedOutput := false, expectError := true })
      ∧ runFinish true false false false
          (mkOutputChecker
            { expectedOutputs := [fun s => s == "FOUND"], unexpectedOutput := none
              terminateAfterExpectedOutput := false, expectError := true })
          = RunOutcome.waitErrAssertionFailed
      ∧ RunOutcome.waitErrAssertionFailed ≠ RunOutcome.expectedOutputsAssertionFailed := by
  refine ⟨rfl, rfl, ?_⟩
  decide

/-- Claim C4 as amended: for every non-cancelled run whose subprocess has
fully exited with at least one expected pattern never matched, `Run`
never reports success (neither the plain pass nor the early-terminated
return); whenever the exit status is consistent with the `ExpectError`
flag (in particular exit 0 with `ExpectError` false), the reported
failure is exactly the `hasSeenExpectedOutputs` assertion, while an
inconsistent exit status makes the earlier exit-status assertion fail
first. -/
theorem run_unmatched_expected_never_passes (eE wS wT : Bool) (opts : RunOptionsM)
    (lines : List String) (c1 : OutputChecker)
    (h : checkOutputAll (mkOutputChecker opts) lines = Except.ok c1)
    (p : Regex) (hp : p ∈ opts.expectedOutputs) (hnm : ∀ x ∈ lines, p x = false) :
    runFinish eE wS wT false c1 ≠ RunOutcome.passed
      ∧ runFinish eE wS wT false c1 ≠ RunOutcome.terminatedEarlyOk
      ∧ ((if eE then !wS else wS) = false →
          runFinish eE wS wT false c1 = RunOutcome.expectedOutputsAssertionFailed) := by
  have hc := checkOutputAll_ok_eq lines _ c1 h
  subst hc
  have hexp : (lines.foldl matchExpected (mkOutputChecker opts)).expectedOutputs
      = opts.expectedOutputs.filter (fun e => lines.all (fun x => ! e x)) := by
    rw [foldl_matchExpected_expectedOutputs]
    rfl
  have hmem : p ∈ (lines.foldl matchExpected (mkOutputChecker opts)).expectedOutputs := by
    rw [hexp]
    apply List.mem_filter.mpr
    refine ⟨hp, ?_⟩
    apply List.all_eq_true.mpr
    intro x hx
    rw [hnm x hx]
    rfl
  have hne : (lines.foldl matchExpected (mkOutputChecker opts)).expectedOutputs ≠ [] :=
    List.ne_nil_of_mem hmem
  have hinv := seenInv_foldl lines (mkOutputChecker opts) (seenInv_mkOutputChecker opts)
  have hseen : (lines.foldl matchExpected (mkOutputChecker opts)).hasSeenExpectedOutputs = false := by
    cases hb : (lines.foldl matchExpected (mkOutputChecker opts)).hasSeenExpectedOutputs with
    | false => rfl
    | true => exact absurd (hinv.1 hb) hne
  have hcall : (lines.foldl matchExpected (mkOutputChecker opts)).hasCalledTerminationFunc = false := by
    cases hb : (lines.foldl matchExpected (mkOutputChecker opts)).hasCalledTerminationFunc with
    | false => rfl
    | true => exact absurd (hinv.2 hb) hne
  have hform : runFinish eE wS wT false (lines.foldl matchExpected (mkOutputChecker opts))
      = (if (if eE then !wS else wS) then RunOutcome.waitErrAssertionFailed
         else RunOutcome.expectedOutputsAssertionFailed) := by
    unfold runFinish
    rw [hseen, hcall]
    simp
  rw [hform]
  cases hwc : (if eE then !wS else wS) with
  | true =>
      rw [if_pos rfl]
      refine ⟨?_, ?_, ?_⟩
      · intro hcontra
        cases hcontra
      · intro hcontra
        cases hcontra
      · intro hw2
        cases hw2
  | false =>
      rw [if_neg Bool.false_ne_true]
      refine ⟨?_, ?_, ?_⟩
      · intro hcontra
        cases hcontra
      · intro hcontra
        cases hcontra
      · intro _
        rfl

theorem run_unmatched_expected_never_passes_witness :
    runFinish false false false false
        (mkOutputChecker
          { expectedOutputs := [fun s => s == "FOUND"], unexpectedOutput := none
            terminateAfterExpectedOutput := false, expectError := false })
        ≠ RunOutcome.passed
      ∧ runFinish false false false false
          (mkOutputChecker
            { expectedOutputs := [fun s => s == "FOUND"], unexpectedOutput := none
              terminateAfterExpectedOutput := false, expectError := false })
          ≠ RunOutcome.terminatedEarlyOk
      ∧ ((if false then !false else false) = false →
          runFinish false false false false
              (mkOutputChecker
                { expectedOutputs := [fun s => s == "FOUND"], unexpectedOutput := none
                  terminateAfterExpectedOutput := false, expectError := false })
            = RunOutcome.expectedOutputsAssertionFailed) :=
  run_unmatched_expected_never_passes false false false
    { expectedOutputs := [fun s => s == "FOUND"], unexpectedOutput := none
      terminateAfterExpectedOutput := false, expectError := false }
    [] _ rfl (fun s => s == "FOUND") (List.Mem.head _)
    (fun x hx => absurd hx (List.not_mem_nil x))

/-- Claim C10: `hasSeenExpectedOutputs` can only become true during a
`checkOutput` call, so it needs at least one processed line; in
particular a run with an empty expected-pattern set whose subprocess
emits no lines keeps `hasSeenExpectedOutputs` false and fails the final
expectation assertion of `Run` (natural exit 0, `ExpectError` false),
even though no patterns were required. -/
theorem hasSeen_requires_processed_line :
    (∀ (opts : RunOptionsM) (lines : List String) (c1 : OutputChecker),
        checkOutputAll (mkOutputChecker opts) lines = Except.ok c1 →
        c1.hasSeenExpectedOutputs = true → lines ≠ [])
      ∧ ∀ (u : Option Regex) (tA eE : Bool),
          (mkOutputChecker
            { expectedOutputs := [], unexpectedOutput := u
              terminateAfterExpectedOutput := tA, expectError := eE }).hasSeenExpectedOutputs
              = false
          ∧ runFinish false false false false
              (mkOutputChecker
                { expectedOutputs := [], unexpectedOutput := u
                  terminateAfterExpectedOutput := tA, expectError := eE })
              = RunOutcome.expectedOutputsAssertionFailed := by
  constructor
  · intro opts lines c1 h hseen hnil
    subst hnil
    cases h
    simp [mkOutputChecker] at hseen
  · intro u tA eE
    exact ⟨rfl, rfl⟩

theorem hasSeen_requires_processed_line_witness :
    checkOutputAll
        (mkOutputChecker
          { expectedOutputs := [], unexpectedOutput := none
            terminateAfterExpectedOutput := false, expectError := false })
        ["X"]
        = Except.ok
            { lenExpectedOutputs := 0, expectedOutputs := [], unexpectedOutput := none
              terminateAfterExpectedOutput := false, hasSeenExpectedOutputs := true
              hasCalledTerminationFunc := false, termCalls := 0 }
      ∧ (OutputChecker.hasSeenExpectedOutputs
          { lenExpectedOutputs := 0, expectedOutputs := [], unexpectedOutput := none
            terminateAfterExpectedOutput := false, hasSeenExpectedOutputs := true
            hasCalledTerminationFunc := false, termCalls := 0 }) = true
      ∧ (["X"] : List String) ≠ [] :=
  ⟨rfl, rfl,
    hasSeen_requires_processed_line.1
      { expectedOutputs := [], unexpectedOutput := none
        terminateAfterExpectedOutput := false, expectError := false }
      ["X"]
      { lenExpectedOutputs := 0, expectedOutputs := [], unexpectedOutput := none
        terminateAfterExpectedOutput := false, hasSeenExpectedOutputs := true
        hasCalledTerminationFunc := false, termCalls := 0 }
      rfl rfl⟩
